import Mathlib

/-!
Verification of the SES webhook notification parser
(`post_office/webhooks/ses.py`, class `SESWebhookHandler`).

The development shallowly embeds the Python code over an inductive `Json`
type.  Python dictionary access (`dict.get`), truthiness, iteration, string
formatting, `json.loads` and `datetime.fromisoformat` are modelled
explicitly; code that can raise a Python exception is embedded in
`Except PyErr`.
-/

set_option maxRecDepth 4000

/-- A JSON value as produced by Python's `json.loads`.  Numbers are
modelled as integers: no claim involves fractional numbers, and the model
of `json.loads` below rejects fractional or exponent notation. -/
inductive Json where
  | null : Json
  | bool (b : Bool) : Json
  | num (n : Int) : Json
  | str (s : String) : Json
  | arr (xs : List Json) : Json
  | obj (kvs : List (String × Json)) : Json

/-- Python truthiness of a JSON value: `None`, `False`, `0`, the empty
string, the empty list and the empty dict are falsy, everything else is
truthy. -/
def truthy : Json → Bool
  | Json.null => false
  | Json.bool b => b
  | Json.num n => n != 0
  | Json.str s => s != ""
  | Json.arr xs => !xs.isEmpty
  | Json.obj kvs => !kvs.isEmpty

/-- Python `d.get(k, default)` on a dict represented as an association
list.  Keys in dicts built by the `json.loads` model are unique, so
first-match lookup coincides with Python lookup. -/
def dictGet (kvs : List (String × Json)) (k : String) (d : Json) : Json :=
  match kvs.find? (fun kv => kv.1 == k) with
  | some kv => kv.2
  | none => d

/-- Python exceptions that the embedded code can raise. -/
inductive PyErr where
  | typeError : PyErr
  | attributeError : PyErr
deriving DecidableEq

/-- Python `x.get(k, default)` on an arbitrary value: only dicts have a
`get` attribute; any other value raises `AttributeError`. -/
def pyGet (j : Json) (k : String) (d : Json) : Except PyErr Json :=
  match j with
  | Json.obj kvs => Except.ok (dictGet kvs k d)
  | _ => Except.error PyErr.attributeError

/-- Python `x == "lit"` for a string literal: true exactly when `x` is
that string (a non-string JSON value never equals a string). -/
def Json.eqStr : Json → String → Bool
  | Json.str s, t => s == t
  | _, _ => false

/-- Python `for x in j`: lists yield their elements, strings yield their
one-character substrings, dicts yield their keys; other values raise
`TypeError`. -/
def pyIter : Json → Except PyErr (List Json)
  | Json.arr xs => Except.ok xs
  | Json.str s => Except.ok (s.data.map (fun c => Json.str (String.mk [c])))
  | Json.obj kvs => Except.ok (kvs.map (fun kv => Json.str kv.1))
  | _ => Except.error PyErr.typeError

mutual
/-- Python `repr` of a JSON value (used by `str` on containers).  String
escaping inside `repr` of a string is approximated by plain
single-quoting; no claim reaches that case. -/
def pyRepr : Json → String
  | Json.null => "None"
  | Json.bool true => "True"
  | Json.bool false => "False"
  | Json.num n => toString n
  | Json.str s => "\x27" ++ s ++ "\x27"
  | Json.arr xs => "[" ++ pyReprList xs ++ "]"
  | Json.obj kvs => "\x7b" ++ pyReprObj kvs ++ "\x7d"

/-- Comma-separated `repr` of the elements of a list. -/
def pyReprList : List Json → String
  | [] => ""
  | [x] => pyRepr x
  | x :: y :: rest => pyRepr x ++ ", " ++ pyReprList (y :: rest)

/-- Comma-separated `repr` of the entries of a dict. -/
def pyReprObj : List (String × Json) → String
  | [] => ""
  | [kv] => "\x27" ++ kv.1 ++ "\x27: " ++ pyRepr kv.2
  | kv :: kw :: rest => "\x27" ++ kv.1 ++ "\x27: " ++ pyRepr kv.2 ++ ", " ++ pyReprObj (kw :: rest)
end

/-- Python `str` of a JSON value, as used by the f-string
`f'Bounce:\x7bbounce_type\x7d'`: the identity on strings, `repr`-like on
everything else. -/
def pyStr : Json → String
  | Json.str s => s
  | j => pyRepr j

/-- Python `s.replace(c, r)` for a one-character pattern, on character
lists. -/
def replaceAllChars : List Char → Char → List Char → List Char
  | [], _, _ => []
  | ch :: rest, c, r => (if ch = c then r else [ch]) ++ replaceAllChars rest c r

/-- Python `s.replace(c, r)` for a one-character pattern `c`: every
occurrence of `c` in `s` is replaced by `r`. -/
def pyReplace (s : String) (c : Char) (r : String) : String :=
  String.mk (replaceAllChars s.data c r.data)

/-- A timezone-aware or naive `datetime` as produced by Python's
`datetime.fromisoformat`: calendar fields plus an optional UTC offset in
minutes (`none` for a naive datetime). -/
structure Timestamp where
  year : Nat
  month : Nat
  day : Nat
  hour : Nat
  minute : Nat
  second : Nat
  offsetMinutes : Option Int
deriving DecidableEq

/-- Numeric value of a decimal digit character, if it is one. -/
def digitVal (c : Char) : Option Nat :=
  if c.isDigit then some (c.toNat - 48) else none

/-- Two decimal digit characters as a number below 100. -/
def digits2 (a b : Char) : Option Nat := do
  let x ← digitVal a
  let y ← digitVal b
  pure (10 * x + y)

/-- Four decimal digit characters as a number below 10000. -/
def digits4 (a b c d : Char) : Option Nat := do
  let x ← digits2 a b
  let y ← digits2 c d
  pure (100 * x + y)

/-- Gregorian leap-year rule. -/
def isLeapYear (y : Nat) : Bool :=
  (y % 4 == 0 && y % 100 != 0) || y % 400 == 0

/-- Number of days in a month of a given year. -/
def daysInMonth (y m : Nat) : Nat :=
  if m == 2 then (if isLeapYear y then 29 else 28)
  else if m == 4 || m == 6 || m == 9 || m == 11 then 30
  else 31

/-- Parse the optional trailing UTC offset of an ISO-8601 string:
either nothing (a naive datetime) or a sign followed by `HH:MM`. -/
def parseOffset : List Char → Option (Option Int)
  | [] => some none
  | [sign, h1, h2, ':', m1, m2] => do
      let hh ← digits2 h1 h2
      let mm ← digits2 m1 m2
      if hh ≤ 23 && mm ≤ 59 then
        let total : Int := hh * 60 + mm
        if sign = '+' then some (some total)
        else if sign = '-' then some (some (-total))
        else none
      else none
  | _ => none

/-- Parse the `HH:MM:SS` time-of-day part of an ISO-8601 string followed
by an optional offset. -/
def parseTimePart (y m d : Nat) : List Char → Option Timestamp
  | h1 :: h2 :: ':' :: mi1 :: mi2 :: ':' :: s1 :: s2 :: rest => do
      let hh ← digits2 h1 h2
      let mi ← digits2 mi1 mi2
      let ss ← digits2 s1 s2
      if hh ≤ 23 && mi ≤ 59 && ss ≤ 59 then
        let off ← parseOffset rest
        pure (Timestamp.mk y m d hh mi ss off)
      else none
  | _ => none

/-- Model of Python's `datetime.fromisoformat` restricted to the shapes
this webhook can meet: `YYYY-MM-DD`, optionally followed by a `T` or
space separator, `HH:MM:SS`, and an optional `+HH:MM` / `-HH:MM` offset,
with calendar validation.  Fractional seconds and other ISO-8601
variants are rejected by the model; `none` stands for `ValueError`. -/
def fromisoformat (s : String) : Option Timestamp :=
  match s.data with
  | y1 :: y2 :: y3 :: y4 :: '-' :: m1 :: m2 :: '-' :: d1 :: d2 :: rest => do
      let y ← digits4 y1 y2 y3 y4
      let m ← digits2 m1 m2
      let d ← digits2 d1 d2
      if 1 ≤ m && m ≤ 12 && 1 ≤ d && d ≤ daysInMonth y m then
        match rest with
        | [] => pure (Timestamp.mk y m d 0 0 0 none)
        | sep :: t =>
            if sep = 'T' || sep = ' ' then parseTimePart y m d t else none
      else none
  | _ => none

/-- Numeric value of a hexadecimal digit character, if it is one. -/
def hexVal (c : Char) : Option Nat :=
  if c.isDigit then some (c.toNat - 48)
  else if 'a' ≤ c && c ≤ 'f' then some (c.toNat - 87)
  else if 'A' ≤ c && c ≤ 'F' then some (c.toNat - 55)
  else none

/-- Skip JSON whitespace. -/
def skipWs : List Char → List Char
  | c :: rest =>
      if c = ' ' || c = '\t' || c = '\n' || c = '\r' then skipWs rest
      else c :: rest
  | [] => []

/-- Parse the remainder of a JSON string literal (the opening quote
already consumed), handling the standard escapes. -/
def parseStringChars : Nat → List Char → List Char → Option (String × List Char)
  | 0, _, _ => none
  | _ + 1, acc, '"' :: rest => some (String.mk acc.reverse, rest)
  | fuel + 1, acc, '\\' :: e :: rest =>
      if e = '"' then parseStringChars fuel ('"' :: acc) rest
      else if e = '\\' then parseStringChars fuel ('\\' :: acc) rest
      else if e = '/' then parseStringChars fuel ('/' :: acc) rest
      else if e = 'n' then parseStringChars fuel ('\n' :: acc) rest
      else if e = 't' then parseStringChars fuel ('\t' :: acc) rest
      else if e = 'r' then parseStringChars fuel ('\r' :: acc) rest
      else if e = 'b' then parseStringChars fuel ('\x08' :: acc) rest
      else if e = 'f' then parseStringChars fuel ('\x0C' :: acc) rest
      else if e = 'u' then
        match rest with
        | h1 :: h2 :: h3 :: h4 :: rest2 => do
            let a ← hexVal h1
            let b ← hexVal h2
            let c ← hexVal h3
            let d ← hexVal h4
            let n := ((a * 16 + b) * 16 + c) * 16 + d
            if h : n.isValidChar then
              parseStringChars fuel (Char.ofNatAux n h :: acc) rest2
            else none
        | _ => none
      else none
  | fuel + 1, acc, c :: rest =>
      if c = '\\' || c = '"' then none else parseStringChars fuel (c :: acc) rest
  | _, _, [] => none

/-- Consume a run of decimal digits, accumulating their value. -/
def parseDigitsAcc : List Char → Nat → Nat × List Char
  | c :: rest, acc =>
      if c.isDigit then parseDigitsAcc rest (acc * 10 + (c.toNat - 48))
      else (acc, c :: rest)
  | [], acc => (acc, [])

/-- Parse a JSON integer (an optional minus sign and digits).  A
following `.`, `e` or `E` would start a float, which the model does not
represent and rejects. -/
def parseNumber : List Char → Option (Json × List Char)
  | '-' :: c :: rest =>
      if c.isDigit then
        let (n, r) := parseDigitsAcc rest (c.toNat - 48)
        match r with
        | d :: _ => if d = '.' || d = 'e' || d = 'E' then none
                    else some (Json.num (-(n : Int)), r)
        | [] => some (Json.num (-(n : Int)), r)
      else none
  | c :: rest =>
      if c.isDigit then
        let (n, r) := parseDigitsAcc rest (c.toNat - 48)
        match r with
        | d :: _ => if d = '.' || d = 'e' || d = 'E' then none
                    else some (Json.num (n : Int), r)
        | [] => some (Json.num (n : Int), r)
      else none
  | [] => none

/-- Insert a key into a dict under Python semantics: overwriting an
existing key keeps its position, a new key is appended. -/
def objInsert (kvs : List (String × Json)) (k : String) (v : Json) : List (String × Json) :=
  if kvs.any (fun kv => kv.1 == k) then
    kvs.map (fun kv => if kv.1 == k then (k, v) else kv)
  else kvs ++ [(k, v)]

mutual
/-- Parse one JSON value (fuel-indexed recursive descent). -/
def parseJsonVal : Nat → List Char → Option (Json × List Char)
  | 0, _ => none
  | fuel + 1, cs =>
      match skipWs cs with
      | 'n' :: 'u' :: 'l' :: 'l' :: rest => some (Json.null, rest)
      | 't' :: 'r' :: 'u' :: 'e' :: rest => some (Json.bool true, rest)
      | 'f' :: 'a' :: 'l' :: 's' :: 'e' :: rest => some (Json.bool false, rest)
      | '"' :: rest =>
          match parseStringChars (rest.length + 1) [] rest with
          | some (s, r) => some (Json.str s, r)
          | none => none
      | '[' :: rest =>
          match skipWs rest with
          | ']' :: r => some (Json.arr [], r)
          | r => parseArrayItems fuel r []
      | '\x7b' :: rest =>
          match skipWs rest with
          | '\x7d' :: r => some (Json.obj [], r)
          | r => parseObjItems fuel r []
      | cs2 => parseNumber cs2

/-- Parse the comma-separated items of a non-empty JSON array, the
opening bracket already consumed. -/
def parseArrayItems : Nat → List Char → List Json → Option (Json × List Char)
  | 0, _, _ => none
  | fuel + 1, cs, acc =>
      match parseJsonVal fuel cs with
      | some (v, r) =>
          match skipWs r with
          | ',' :: r2 => parseArrayItems fuel r2 (v :: acc)
          | ']' :: r2 => some (Json.arr (v :: acc).reverse, r2)
          | _ => none
      | none => none

/-- Parse the comma-separated entries of a non-empty JSON object, the
opening brace already consumed. -/
def parseObjItems : Nat → List Char → List (String × Json) → Option (Json × List Char)
  | 0, _, _ => none
  | fuel + 1, cs, acc =>
      match skipWs cs with
      | '"' :: rest =>
          match parseStringChars (rest.length + 1) [] rest with
          | some (k, r) =>
              match skipWs r with
              | ':' :: r2 =>
                  match parseJsonVal fuel r2 with
                  | some (v, r3) =>
                      match skipWs r3 with
                      | ',' :: r4 => parseObjItems fuel r4 (objInsert acc k v)
                      | '\x7d' :: r4 => some (Json.obj (objInsert acc k v), r4)
                      | _ => none
                  | none => none
              | _ => none
          | none => none
      | _ => none
end

/-- Model of Python's `json.loads`: parse one JSON value and require
only whitespace after it; `none` stands for `json.JSONDecodeError`. -/
def json_loads (s : String) : Option Json :=
  match parseJsonVal (2 * s.length + 4) s.data with
  | some (j, rest) => if (skipWs rest).isEmpty then some j else none
  | none => none

/-- Modelled from the spec: the canonical delivery-status enumeration of
`post_office.models.RecipientDeliveryStatus` (the module is not among
the sources); the spec fixes its values as DELIVERED, HARD_BOUNCED,
SOFT_BOUNCED and SPAM_COMPLAINT. -/
inductive RecipientDeliveryStatus where
  | DELIVERED : RecipientDeliveryStatus
  | HARD_BOUNCED : RecipientDeliveryStatus
  | SOFT_BOUNCED : RecipientDeliveryStatus
  | SPAM_COMPLAINT : RecipientDeliveryStatus
deriving DecidableEq

/-- Modelled from the spec: `ESPEvent` of `post_office.webhooks.base`
(the module is not among the sources); the spec describes it as the
NormalizedEvent record with exactly the fields the handler passes as
keyword arguments.  Fields the Python code fills with arbitrary decoded
JSON values are typed `Json`. -/
structure ESPEvent where
  raw_event : String
  delivery_status : RecipientDeliveryStatus
  recipient : Json
  message_id : Json
  timestamp : Option Timestamp
  subject : Json
  to_addresses : Json

/-- The timestamp block of `parse_events` (ses.py lines 153-159):
`mail_data.get('timestamp')`, Python truthiness via the walrus `if`,
`ts.replace('Z', '+00:00')` (an `AttributeError` on a non-string `ts`
propagates: only `ValueError` and `TypeError` are caught) and
`datetime.fromisoformat` whose `ValueError` degrades to `None`. -/
def getTimestamp (mail_data : Json) : Except PyErr (Option Timestamp) := do
  let tsVal ← pyGet mail_data "timestamp" Json.null
  if truthy tsVal then
    match tsVal with
    | Json.str s => pure (fromisoformat (pyReplace s 'Z' "+00:00"))
    | _ => Except.error PyErr.attributeError
  else
    pure none

/-- The shared loop of the Bounce and Complaint branches (ses.py lines
188-201 and 207-220): for each entry, `entry.get('emailAddress', '')`,
and an event is appended only when the address is truthy. -/
def emailEvents (items : List Json) (mk : Json → ESPEvent) : Except PyErr (List ESPEvent) :=
  match items with
  | [] => Except.ok []
  | info :: rest => do
      let recipient ← pyGet info "emailAddress" (Json.str "")
      let tail ← emailEvents rest mk
      if truthy recipient then pure (mk recipient :: tail) else pure tail

/-- The body of `SESWebhookHandler.parse_events` from the decoded inner
`message` on (ses.py lines 144-225): extract the common mail fields,
then branch on `notificationType` into the Delivery, Bounce and
Complaint classifiers. -/
def classify_message (message : Json) : Except PyErr (List ESPEvent) := do
  let notification_type ← pyGet message "notificationType" (Json.str "")
  let mail_data ← pyGet message "mail" (Json.obj [])
  let message_id ← pyGet mail_data "messageId" Json.null
  let destinations ← pyGet mail_data "destination" (Json.arr [])
  let common_headers ← pyGet mail_data "commonHeaders" (Json.obj [])
  let subject ← pyGet common_headers "subject" Json.null
  let timestamp ← getTimestamp mail_data
  if notification_type.eqStr "Delivery" then do
    let delivery_data ← pyGet message "delivery" (Json.obj [])
    let recipients ← pyGet delivery_data "recipients" destinations
    let items ← pyIter recipients
    pure (items.map (fun recipient =>
      ESPEvent.mk "Delivery" RecipientDeliveryStatus.DELIVERED recipient
        message_id timestamp subject destinations))
  else if notification_type.eqStr "Bounce" then do
    let bounce_data ← pyGet message "bounce" (Json.obj [])
    let bounce_type ← pyGet bounce_data "bounceType" (Json.str "Permanent")
    let bounced_recipients ← pyGet bounce_data "bouncedRecipients" (Json.arr [])
    let status := if bounce_type.eqStr "Transient" then RecipientDeliveryStatus.SOFT_BOUNCED
      else RecipientDeliveryStatus.HARD_BOUNCED
    let items ← pyIter bounced_recipients
    emailEvents items (fun recipient =>
      ESPEvent.mk ("Bounce:" ++ pyStr bounce_type) status recipient
        message_id timestamp subject destinations)
  else if notification_type.eqStr "Complaint" then do
    let complaint_data ← pyGet message "complaint" (Json.obj [])
    let complained_recipients ← pyGet complaint_data "complainedRecipients" (Json.arr [])
    let items ← pyIter complained_recipients
    emailEvents items (fun recipient =>
      ESPEvent.mk "Complaint" RecipientDeliveryStatus.SPAM_COMPLAINT recipient
        message_id timestamp subject destinations)
  else
    pure []

/-- `SESWebhookHandler.parse_events` (ses.py lines 119-225) on an
already-decoded outer payload dict (the branch the SNS `post` handler
takes; the `HttpRequest` branch only decodes the body first and
re-raises on failure).  `payload.get('Message', '')`, the truthiness
early return, `json.loads` of the inner message with
`json.JSONDecodeError` caught (a non-string truthy `Message` raises
`TypeError` inside `json.loads`, which is not caught), then the
classifier. -/
def parse_events (payload : List (String × Json)) : Except PyErr (List ESPEvent) :=
  let message_str := dictGet payload "Message" (Json.str "")
  if truthy message_str then
    match message_str with
    | Json.str s =>
        match json_loads s with
        | some message => classify_message message
        | none => Except.ok []
    | _ => Except.error PyErr.typeError
  else
    Except.ok []

/-- A Django `JsonResponse`: HTTP status code plus the JSON object body. -/
structure HttpResponse where
  status : Nat
  body : List (String × Json)

/-- `SESWebhookHandler.verify_signature`: an explicit placeholder that
always returns `True` (ses.py lines 48-55). -/
def verify_signature : Bool := true

/-- `SESWebhookHandler._handle_subscription_confirmation` (ses.py lines
87-105): a 200 response echoing `TopicArn` and `SubscribeURL` from the
payload (default `None`) under a status marker. -/
def handle_subscription_confirmation (payload : List (String × Json)) : HttpResponse :=
  HttpResponse.mk 200
    [("status", Json.str "subscription_confirmation_received"),
     ("topic_arn", dictGet payload "TopicArn" Json.null),
     ("subscribe_url", dictGet payload "SubscribeURL" Json.null)]

/-- `SESWebhookHandler._handle_notification` (ses.py lines 107-117):
any exception from `parse_events` becomes a 400 response; otherwise the
events are handed to the external `handle_events` collaborator (a side
effect outside this model) and a 200 response reports the count. -/
def handle_notification (payload : List (String × Json)) : HttpResponse :=
  match parse_events payload with
  | Except.error _ => HttpResponse.mk 400 [("error", Json.str "Failed to parse events")]
  | Except.ok events =>
      HttpResponse.mk 200 [("status", Json.str "ok"), ("processed", Json.num events.length)]

/-- `SESWebhookHandler.post` (ses.py lines 57-85) on the raw request
body: signature check (the placeholder always passes), outer JSON
decode with a 400 on failure, then dispatch on `Type`.  A body decoding
to a non-dict raises `AttributeError` at `payload.get`. -/
def post (body : String) : Except PyErr HttpResponse :=
  if verify_signature = false then
    Except.ok (HttpResponse.mk 401 [("error", Json.str "Invalid signature")])
  else
    match json_loads body with
    | none => Except.ok (HttpResponse.mk 400 [("error", Json.str "Invalid JSON")])
    | some (Json.obj kvs) =>
        let message_type := dictGet kvs "Type" (Json.str "")
        if message_type.eqStr "SubscriptionConfirmation" then
          Except.ok (handle_subscription_confirmation kvs)
        else if message_type.eqStr "UnsubscribeConfirmation" then
          Except.ok (HttpResponse.mk 200 [("status", Json.str "ok")])
        else if message_type.eqStr "Notification" then
          Except.ok (handle_notification kvs)
        else
          Except.ok (HttpResponse.mk 400 [("error", Json.str "Unknown message type")])
    | some _ => Except.error PyErr.attributeError

theorem except_bind_ok {α β : Type} (a : α) (f : α → Except PyErr β) :
    (Except.ok a : Except PyErr α) >>= f = f a := rfl

theorem except_bind_error {α β : Type} (e : PyErr) (f : α → Except PyErr β) :
    (Except.error e : Except PyErr α) >>= f = Except.error e := rfl

theorem except_pure {α : Type} (a : α) :
    (pure a : Except PyErr α) = Except.ok a := rfl

theorem except_bind_eq_ok {α β : Type} {x : Except PyErr α} {f : α → Except PyErr β} {b : β} :
    x >>= f = Except.ok b ↔ ∃ a, x = Except.ok a ∧ f a = Except.ok b := by
  cases x with
  | error e => simp [except_bind_error]
  | ok a => simp [except_bind_ok]

theorem except_map_eq_ok {α β : Type} {x : Except PyErr α} {g : α → β} {b : β} :
    x.map g = Except.ok b ↔ ∃ a, x = Except.ok a ∧ g a = b := by
  cases x with
  | error e => simp [Except.map]
  | ok a => simp [Except.map]

theorem pyGet_obj (kvs : List (String × Json)) (k : String) (d : Json) :
    pyGet (Json.obj kvs) k d = Except.ok (dictGet kvs k d) := rfl

/-- The addresses the Bounce/Complaint loop keeps: for each entry its
`emailAddress` (default the empty string), retained when truthy. -/
def extractAddresses : List Json → Except PyErr (List Json)
  | [] => Except.ok []
  | info :: rest => do
      let r ← pyGet info "emailAddress" (Json.str "")
      let tail ← extractAddresses rest
      pure (if truthy r then r :: tail else tail)

/-- The Bounce/Complaint loop is the extracted address list mapped
through the event constructor. -/
theorem emailEvents_eq (items : List Json) (mk : Json → ESPEvent) :
    emailEvents items mk = (extractAddresses items).map (List.map mk) := by
  induction items with
  | nil => rfl
  | cons info rest ih =>
    simp only [emailEvents, extractAddresses, ih]
    cases pyGet info "emailAddress" (Json.str "") with
    | error e => rfl
    | ok r =>
      simp only [except_bind_ok]
      cases extractAddresses rest with
      | error e => rfl
      | ok tail =>
        by_cases h : truthy r = true <;>
          simp [Except.map, except_bind_ok, except_pure, h]

/-- The model of `json.loads` rejects the empty string. -/
theorem json_loads_empty : json_loads "" = none := rfl

/-- Unwrapping `parse_events`: when the payload's `Message` is a string
that decodes, `parse_events` is the classifier on the decoded message. -/
theorem parse_events_eq_classify (payload : List (String × Json)) (s : String) (m : Json)
    (hmsg : dictGet payload "Message" (Json.str "") = Json.str s)
    (hdec : json_loads s = some m) :
    parse_events payload = classify_message m := by
  have hs : s ≠ "" := by
    intro h
    rw [h, json_loads_empty] at hdec
    exact Option.noConfusion hdec
  have ht : truthy (Json.str s) = true := by
    simp [truthy, hs]
  simp only [parse_events, hmsg, ht, if_true, hdec]

/-- The Delivery branch of the classifier, with the intermediate
lookups of the source named by hypotheses. -/
theorem classify_delivery
    (msg mail ch deliv : List (String × Json)) (recips : List Json) (ts : Option Timestamp)
    (hnt : dictGet msg "notificationType" (Json.str "") = Json.str "Delivery")
    (hmail : dictGet msg "mail" (Json.obj []) = Json.obj mail)
    (hch : dictGet mail "commonHeaders" (Json.obj []) = Json.obj ch)
    (hts : getTimestamp (Json.obj mail) = Except.ok ts)
    (hdeliv : dictGet msg "delivery" (Json.obj []) = Json.obj deliv)
    (hrec : pyIter (dictGet deliv "recipients" (dictGet mail "destination" (Json.arr []))) =
      Except.ok recips) :
    classify_message (Json.obj msg) = Except.ok (recips.map (fun r =>
      ESPEvent.mk "Delivery" RecipientDeliveryStatus.DELIVERED r
        (dictGet mail "messageId" Json.null) ts (dictGet ch "subject" Json.null)
        (dictGet mail "destination" (Json.arr [])))) := by
  simp only [classify_message, pyGet_obj, except_bind_ok, hnt, hmail, hch, hts, hdeliv, hrec,
    Json.eqStr, except_pure]
  rfl

/-- The Bounce branch of the classifier, with the intermediate lookups
of the source named by hypotheses; the retained recipients are given by
`extractAddresses`. -/
theorem classify_bounce
    (msg mail ch bounce : List (String × Json)) (items rs : List Json) (ts : Option Timestamp)
    (hnt : dictGet msg "notificationType" (Json.str "") = Json.str "Bounce")
    (hmail : dictGet msg "mail" (Json.obj []) = Json.obj mail)
    (hch : dictGet mail "commonHeaders" (Json.obj []) = Json.obj ch)
    (hts : getTimestamp (Json.obj mail) = Except.ok ts)
    (hbounce : dictGet msg "bounce" (Json.obj []) = Json.obj bounce)
    (hiter : pyIter (dictGet bounce "bouncedRecipients" (Json.arr [])) = Except.ok items)
    (haddr : extractAddresses items = Except.ok rs) :
    classify_message (Json.obj msg) = Except.ok (rs.map (fun r =>
      ESPEvent.mk ("Bounce:" ++ pyStr (dictGet bounce "bounceType" (Json.str "Permanent")))
        (if (dictGet bounce "bounceType" (Json.str "Permanent")).eqStr "Transient" then
          RecipientDeliveryStatus.SOFT_BOUNCED else RecipientDeliveryStatus.HARD_BOUNCED)
        r (dictGet mail "messageId" Json.null) ts (dictGet ch "subject" Json.null)
        (dictGet mail "destination" (Json.arr [])))) := by
  simp only [classify_message, pyGet_obj, except_bind_ok, hnt, hmail, hch, hts, hbounce, hiter,
    except_pure, emailEvents_eq, haddr, Except.map]
  rfl

/-- The Complaint branch of the classifier, with the intermediate
lookups of the source named by hypotheses; the retained recipients are
given by `extractAddresses`. -/
theorem classify_complaint
    (msg mail ch comp : List (String × Json)) (items rs : List Json) (ts : Option Timestamp)
    (hnt : dictGet msg "notificationType" (Json.str "") = Json.str "Complaint")
    (hmail : dictGet msg "mail" (Json.obj []) = Json.obj mail)
    (hch : dictGet mail "commonHeaders" (Json.obj []) = Json.obj ch)
    (hts : getTimestamp (Json.obj mail) = Except.ok ts)
    (hcomp : dictGet msg "complaint" (Json.obj []) = Json.obj comp)
    (hiter : pyIter (dictGet comp "complainedRecipients" (Json.arr [])) = Except.ok items)
    (haddr : extractAddresses items = Except.ok rs) :
    classify_message (Json.obj msg) = Except.ok (rs.map (fun r =>
      ESPEvent.mk "Complaint" RecipientDeliveryStatus.SPAM_COMPLAINT
        r (dictGet mail "messageId" Json.null) ts (dictGet ch "subject" Json.null)
        (dictGet mail "destination" (Json.arr [])))) := by
  simp only [classify_message, pyGet_obj, except_bind_ok, hnt, hmail, hch, hts, hcomp, hiter,
    except_pure, emailEvents_eq, haddr, Except.map]
  rfl

/-- C1: For every Delivery notification, the emitted events are exactly
one per element of the effective recipient list — `delivery.recipients`
when that key is present, else the full `mail.destination` list — in
that list's order with no sorting or deduplication, each event's
recipient being the corresponding element, and every event's
`to_addresses` is the full `mail.destination` list regardless of which
list was iterated. -/
theorem delivery_events_match_recipient_list
    (payload : List (String × Json)) (s : String)
    (msg mail ch deliv : List (String × Json)) (recips : List Json) (ts : Option Timestamp)
    (hmsg : dictGet payload "Message" (Json.str "") = Json.str s)
    (hdec : json_loads s = some (Json.obj msg))
    (hnt : dictGet msg "notificationType" (Json.str "") = Json.str "Delivery")
    (hmail : dictGet msg "mail" (Json.obj []) = Json.obj mail)
    (hch : dictGet mail "commonHeaders" (Json.obj []) = Json.obj ch)
    (hts : getTimestamp (Json.obj mail) = Except.ok ts)
    (hdeliv : dictGet msg "delivery" (Json.obj []) = Json.obj deliv)
    (hrec : pyIter (dictGet deliv "recipients" (dictGet mail "destination" (Json.arr []))) =
      Except.ok recips) :
    parse_events payload = Except.ok (recips.map (fun r =>
      ESPEvent.mk "Delivery" RecipientDeliveryStatus.DELIVERED r
        (dictGet mail "messageId" Json.null) ts (dictGet ch "subject" Json.null)
        (dictGet mail "destination" (Json.arr [])))) := by
  rw [parse_events_eq_classify payload s (Json.obj msg) hmsg hdec]
  exact classify_delivery msg mail ch deliv recips ts hnt hmail hch hts hdeliv hrec

/-- Witness for C1, mirroring the multiple-recipient test: three
destinations, two notification-level recipients, two events with the
full destination list as `to_addresses`. -/
theorem delivery_events_match_recipient_list_witness :
    parse_events [("Type", Json.str "Notification"), ("Message", Json.str
      "\x7b\"notificationType\":\"Delivery\",\"mail\":\x7b\"messageId\":\"abc123\",\"destination\":[\"u1\",\"u2\",\"u3\"],\"timestamp\":\"2024-01-02T03:04:05Z\"\x7d,\"delivery\":\x7b\"recipients\":[\"u1\",\"u2\"]\x7d\x7d")] =
    Except.ok ([Json.str "u1", Json.str "u2"].map (fun r =>
      ESPEvent.mk "Delivery" RecipientDeliveryStatus.DELIVERED r
        (Json.str "abc123") (some (Timestamp.mk 2024 1 2 3 4 5 (some 0))) Json.null
        (Json.arr [Json.str "u1", Json.str "u2", Json.str "u3"]))) := by
  exact delivery_events_match_recipient_list _ _
    [("notificationType", Json.str "Delivery"),
     ("mail", Json.obj [("messageId", Json.str "abc123"),
        ("destination", Json.arr [Json.str "u1", Json.str "u2", Json.str "u3"]),
        ("timestamp", Json.str "2024-01-02T03:04:05Z")]),
     ("delivery", Json.obj [("recipients", Json.arr [Json.str "u1", Json.str "u2"])])]
    [("messageId", Json.str "abc123"),
     ("destination", Json.arr [Json.str "u1", Json.str "u2", Json.str "u3"]),
     ("timestamp", Json.str "2024-01-02T03:04:05Z")]
    [] [("recipients", Json.arr [Json.str "u1", Json.str "u2"])]
    [Json.str "u1", Json.str "u2"] (some (Timestamp.mk 2024 1 2 3 4 5 (some 0)))
    rfl rfl rfl rfl rfl rfl rfl rfl

/-- C2: For every Bounce notification, each emitted event has status
SOFT_BOUNCED exactly when the bounce sub-type string is "Transient" and
HARD_BOUNCED for every other sub-type value — including the default
"Permanent" taken when the sub-type key is absent — and each event's
`raw_event` is the literal concatenation of "Bounce:" with the sub-type
string, preserved verbatim even for custom values. -/
theorem bounce_status_and_raw_event
    (payload : List (String × Json)) (s bt : String)
    (msg mail ch bounce : List (String × Json)) (items rs : List Json) (ts : Option Timestamp)
    (hmsg : dictGet payload "Message" (Json.str "") = Json.str s)
    (hdec : json_loads s = some (Json.obj msg))
    (hnt : dictGet msg "notificationType" (Json.str "") = Json.str "Bounce")
    (hmail : dictGet msg "mail" (Json.obj []) = Json.obj mail)
    (hch : dictGet mail "commonHeaders" (Json.obj []) = Json.obj ch)
    (hts : getTimestamp (Json.obj mail) = Except.ok ts)
    (hbounce : dictGet msg "bounce" (Json.obj []) = Json.obj bounce)
    (hbt : dictGet bounce "bounceType" (Json.str "Permanent") = Json.str bt)
    (hiter : pyIter (dictGet bounce "bouncedRecipients" (Json.arr [])) = Except.ok items)
    (haddr : extractAddresses items = Except.ok rs) :
    ∃ evs, parse_events payload = Except.ok evs ∧
      ∀ e ∈ evs, e.raw_event = "Bounce:" ++ bt ∧
        (e.delivery_status = RecipientDeliveryStatus.SOFT_BOUNCED ↔ bt = "Transient") ∧
        (bt ≠ "Transient" → e.delivery_status = RecipientDeliveryStatus.HARD_BOUNCED) := by
  rw [parse_events_eq_classify payload s (Json.obj msg) hmsg hdec]
  rw [classify_bounce msg mail ch bounce items rs ts hnt hmail hch hts hbounce hiter haddr]
  refine ⟨_, rfl, ?_⟩
  intro e he
  obtain ⟨r, _, rfl⟩ := List.mem_map.1 he
  rw [hbt]
  by_cases h : bt = "Transient" <;>
    simp [Json.eqStr, pyStr, h]

/-- Witness for C2 at a Transient bounce with a custom-cased check: one
bounced recipient, status SOFT_BOUNCED, `raw_event` "Bounce:Transient". -/
theorem bounce_status_and_raw_event_witness :
    ∃ evs, parse_events [("Message", Json.str
      "\x7b\"notificationType\":\"Bounce\",\"mail\":\x7b\"messageId\":\"m1\",\"destination\":[\"u@x\"]\x7d,\"bounce\":\x7b\"bounceType\":\"Transient\",\"bouncedRecipients\":[\x7b\"emailAddress\":\"u@x\"\x7d]\x7d\x7d")] =
      Except.ok evs ∧
    ∀ e ∈ evs, e.raw_event = "Bounce:" ++ "Transient" ∧
      (e.delivery_status = RecipientDeliveryStatus.SOFT_BOUNCED ↔ "Transient" = "Transient") ∧
      ("Transient" ≠ "Transient" → e.delivery_status = RecipientDeliveryStatus.HARD_BOUNCED) :=
  bounce_status_and_raw_event _ _ "Transient"
    [("notificationType", Json.str "Bounce"),
     ("mail", Json.obj [("messageId", Json.str "m1"),
        ("destination", Json.arr [Json.str "u@x"])]),
     ("bounce", Json.obj [("bounceType", Json.str "Transient"),
        ("bouncedRecipients", Json.arr [Json.obj [("emailAddress", Json.str "u@x")]])])]
    [("messageId", Json.str "m1"), ("destination", Json.arr [Json.str "u@x"])]
    [] [("bounceType", Json.str "Transient"),
        ("bouncedRecipients", Json.arr [Json.obj [("emailAddress", Json.str "u@x")]])]
    [Json.obj [("emailAddress", Json.str "u@x")]] [Json.str "u@x"] none
    rfl rfl rfl rfl rfl rfl rfl rfl rfl rfl

/-- C3: For every Complaint notification, the emitted events are one per
entry of `complainedRecipients` whose `emailAddress` is truthy (for
string addresses: non-empty), in order, and every event has status
SPAM_COMPLAINT and `raw_event` exactly "Complaint". -/
theorem complaint_events_spam_complaint
    (payload : List (String × Json)) (s : String)
    (msg mail ch comp : List (String × Json)) (items rs : List Json) (ts : Option Timestamp)
    (hmsg : dictGet payload "Message" (Json.str "") = Json.str s)
    (hdec : json_loads s = some (Json.obj msg))
    (hnt : dictGet msg "notificationType" (Json.str "") = Json.str "Complaint")
    (hmail : dictGet msg "mail" (Json.obj []) = Json.obj mail)
    (hch : dictGet mail "commonHeaders" (Json.obj []) = Json.obj ch)
    (hts : getTimestamp (Json.obj mail) = Except.ok ts)
    (hcomp : dictGet msg "complaint" (Json.obj []) = Json.obj comp)
    (hiter : pyIter (dictGet comp "complainedRecipients" (Json.arr [])) = Except.ok items)
    (haddr : extractAddresses items = Except.ok rs) :
    parse_events payload = Except.ok (rs.map (fun r =>
      ESPEvent.mk "Complaint" RecipientDeliveryStatus.SPAM_COMPLAINT r
        (dictGet mail "messageId" Json.null) ts (dictGet ch "subject" Json.null)
        (dictGet mail "destination" (Json.arr [])))) := by
  rw [parse_events_eq_classify payload s (Json.obj msg) hmsg hdec]
  exact classify_complaint msg mail ch comp items rs ts hnt hmail hch hts hcomp hiter haddr

/-- Witness for C3, mirroring the complaint test: one complained
recipient, one SPAM_COMPLAINT event with `raw_event` "Complaint". -/
theorem complaint_events_spam_complaint_witness :
    parse_events [("Message", Json.str
      "\x7b\"notificationType\":\"Complaint\",\"mail\":\x7b\"messageId\":\"m1\",\"destination\":[\"u@x\"]\x7d,\"complaint\":\x7b\"complainedRecipients\":[\x7b\"emailAddress\":\"u@x\"\x7d]\x7d\x7d")] =
    Except.ok ([Json.str "u@x"].map (fun r =>
      ESPEvent.mk "Complaint" RecipientDeliveryStatus.SPAM_COMPLAINT r
        (Json.str "m1") none Json.null (Json.arr [Json.str "u@x"]))) :=
  complaint_events_spam_complaint _ _
    [("notificationType", Json.str "Complaint"),
     ("mail", Json.obj [("messageId", Json.str "m1"),
        ("destination", Json.arr [Json.str "u@x"])]),
     ("complaint", Json.obj
        [("complainedRecipients", Json.arr [Json.obj [("emailAddress", Json.str "u@x")]])])]
    [("messageId", Json.str "m1"), ("destination", Json.arr [Json.str "u@x"])]
    [] [("complainedRecipients", Json.arr [Json.obj [("emailAddress", Json.str "u@x")]])]
    [Json.obj [("emailAddress", Json.str "u@x")]] [Json.str "u@x"] none
    rfl rfl rfl rfl rfl rfl rfl rfl rfl

/-- C4: For every payload whose `Message` field is absent or the empty
string (the default of `payload.get('Message', '')` makes both read as
the empty string), or whose `Message` is a string that is not valid
JSON, `parse_events` returns the empty event list and no exception
reaches the caller. -/
theorem no_message_or_bad_json_yields_no_events
    (payload : List (String × Json)) (s : String)
    (hmsg : dictGet payload "Message" (Json.str "") = Json.str s)
    (hbad : s = "" ∨ json_loads s = none) :
    parse_events payload = Except.ok [] := by
  rcases hbad with h | h
  · subst h
    simp [parse_events, hmsg, truthy]
  · cases ht : truthy (Json.str s) <;>
      simp [parse_events, hmsg, ht, h]

/-- Witness for C4 on all three shapes: `Message` absent, `Message` the
empty string and `Message` holding undecodable text. -/
theorem no_message_or_bad_json_yields_no_events_witness :
    parse_events [("Type", Json.str "Notification")] = Except.ok [] ∧
    parse_events [("Message", Json.str "")] = Except.ok [] ∧
    parse_events [("Message", Json.str "\x7boops")] = Except.ok [] :=
  ⟨no_message_or_bad_json_yields_no_events _ "" rfl (Or.inl rfl),
   no_message_or_bad_json_yields_no_events _ "" rfl (Or.inl rfl),
   no_message_or_bad_json_yields_no_events _ "\x7boops" rfl (Or.inr rfl)⟩


/-- Whether a JSON value is a dict. -/
def isObj : Json → Bool
  | Json.obj _ => true
  | _ => false

/-- Whether Python can iterate the value (list, string or dict). -/
def iterableJson : Json → Bool
  | Json.arr _ => true
  | Json.str _ => true
  | Json.obj _ => true
  | _ => false

/-- Whether a value is a string or falsy (the shapes the timestamp block
handles without raising). -/
def strOrFalsy : Json → Bool
  | Json.str _ => true
  | j => !truthy j

/-- Whether the value iterates into dicts only. -/
def allObjs (j : Json) : Bool :=
  match pyIter j with
  | Except.ok items => items.all isObj
  | Except.error _ => false

/-- Shape of the `delivery` value for an exception-free Delivery
branch: a dict whose effective recipient list is iterable. -/
def deliveryShape (mail : List (String × Json)) : Json → Bool
  | Json.obj deliv =>
      iterableJson (dictGet deliv "recipients" (dictGet mail "destination" (Json.arr [])))
  | _ => false

/-- Shape of the `bounce` value for an exception-free Bounce branch: a
dict whose `bouncedRecipients` iterates into dicts. -/
def bounceShape : Json → Bool
  | Json.obj bounce => allObjs (dictGet bounce "bouncedRecipients" (Json.arr []))
  | _ => false

/-- Shape of the `complaint` value for an exception-free Complaint
branch: a dict whose `complainedRecipients` iterates into dicts. -/
def complaintShape : Json → Bool
  | Json.obj comp => allObjs (dictGet comp "complainedRecipients" (Json.arr []))
  | _ => false

/-- Shape of the `mail` value for an exception-free classifier run,
combined with the branch-specific shape. -/
def mailShape (msg : List (String × Json)) : Json → Bool
  | Json.obj mail =>
      isObj (dictGet mail "commonHeaders" (Json.obj [])) &&
      strOrFalsy (dictGet mail "timestamp" Json.null) &&
      (if (dictGet msg "notificationType" (Json.str "")).eqStr "Delivery" then
        deliveryShape mail (dictGet msg "delivery" (Json.obj []))
      else if (dictGet msg "notificationType" (Json.str "")).eqStr "Bounce" then
        bounceShape (dictGet msg "bounce" (Json.obj []))
      else if (dictGet msg "notificationType" (Json.str "")).eqStr "Complaint" then
        complaintShape (dictGet msg "complaint" (Json.obj []))
      else true)
  | _ => false

/-- The inner messages on which the classifier is exception-free. -/
def wellShapedMessage : Json → Bool
  | Json.obj msg => mailShape msg (dictGet msg "mail" (Json.obj []))
  | _ => false

/-- Whether the decoded `Message` text keeps `parse_events`
exception-free: undecodable text is fine, a decodable one must decode
to a well-shaped message. -/
def messageShape (s : String) : Bool :=
  match json_loads s with
  | some message => wellShapedMessage message
  | none => true

/-- The payloads on which `parse_events` is exception-free: `Message`
absent, falsy, or a string whose decodable content is well-shaped. -/
def wellShapedPayload (payload : List (String × Json)) : Bool :=
  match dictGet payload "Message" (Json.str "") with
  | Json.str s => messageShape s
  | m => !truthy m

theorem getTimestamp_ok (mail : List (String × Json))
    (h : strOrFalsy (dictGet mail "timestamp" Json.null) = true) :
    ∃ t, getTimestamp (Json.obj mail) = Except.ok t := by
  unfold getTimestamp
  simp only [pyGet_obj, except_bind_ok]
  cases hv : dictGet mail "timestamp" Json.null with
  | str s => cases ht : truthy (Json.str s) <;> simp [ht, except_pure]
  | null => simp [truthy, except_pure]
  | bool b =>
      rw [hv] at h
      simp only [strOrFalsy, Bool.not_eq_true'] at h
      simp [h, except_pure]
  | num n =>
      rw [hv] at h
      simp only [strOrFalsy, Bool.not_eq_true'] at h
      simp [h, except_pure]
  | arr xs =>
      rw [hv] at h
      simp only [strOrFalsy, Bool.not_eq_true'] at h
      simp [h, except_pure]
  | obj kvs =>
      rw [hv] at h
      simp only [strOrFalsy, Bool.not_eq_true'] at h
      simp [h, except_pure]

theorem pyIter_ok_of_iterable (j : Json) (h : iterableJson j = true) :
    ∃ l, pyIter j = Except.ok l := by
  cases j with
  | arr xs => exact ⟨xs, rfl⟩
  | str s => exact ⟨_, rfl⟩
  | obj kvs => exact ⟨_, rfl⟩
  | null => simp [iterableJson] at h
  | bool b => simp [iterableJson] at h
  | num n => simp [iterableJson] at h

theorem allObjs_elim (j : Json) (h : allObjs j = true) :
    ∃ items, pyIter j = Except.ok items ∧ ∀ x ∈ items, isObj x = true := by
  unfold allObjs at h
  cases hi : pyIter j with
  | error e => rw [hi] at h; exact Bool.noConfusion h
  | ok items =>
      rw [hi] at h
      simp only at h
      exact ⟨items, rfl, by simpa [List.all_eq_true] using h⟩

theorem extractAddresses_ok (items : List Json) (h : ∀ x ∈ items, isObj x = true) :
    ∃ rs, extractAddresses items = Except.ok rs := by
  induction items with
  | nil => exact ⟨[], rfl⟩
  | cons info rest ih =>
      obtain ⟨rs, hrs⟩ := ih (fun x hx => h x (List.mem_cons_of_mem _ hx))
      have hobj := h info (List.mem_cons_self _ _)
      cases info with
      | obj o =>
          refine ⟨if truthy (dictGet o "emailAddress" (Json.str "")) = true then
              dictGet o "emailAddress" (Json.str "") :: rs else rs, ?_⟩
          simp only [extractAddresses, pyGet_obj, except_bind_ok, hrs, except_pure]
      | null => simp [isObj] at hobj
      | bool b => simp [isObj] at hobj
      | num n => simp [isObj] at hobj
      | str s => simp [isObj] at hobj
      | arr xs => simp [isObj] at hobj

theorem deliveryShape_elim (mail : List (String × Json)) (j : Json)
    (h : deliveryShape mail j = true) :
    ∃ deliv, j = Json.obj deliv ∧
      iterableJson (dictGet deliv "recipients" (dictGet mail "destination" (Json.arr []))) = true := by
  cases j with
  | obj deliv => exact ⟨deliv, rfl, by simpa [deliveryShape] using h⟩
  | null => simp [deliveryShape] at h
  | bool b => simp [deliveryShape] at h
  | num n => simp [deliveryShape] at h
  | str s => simp [deliveryShape] at h
  | arr xs => simp [deliveryShape] at h

theorem bounceShape_elim (j : Json) (h : bounceShape j = true) :
    ∃ bounce, j = Json.obj bounce ∧
      allObjs (dictGet bounce "bouncedRecipients" (Json.arr [])) = true := by
  cases j with
  | obj bounce => exact ⟨bounce, rfl, by simpa [bounceShape] using h⟩
  | null => simp [bounceShape] at h
  | bool b => simp [bounceShape] at h
  | num n => simp [bounceShape] at h
  | str s => simp [bounceShape] at h
  | arr xs => simp [bounceShape] at h

theorem complaintShape_elim (j : Json) (h : complaintShape j = true) :
    ∃ comp, j = Json.obj comp ∧
      allObjs (dictGet comp "complainedRecipients" (Json.arr [])) = true := by
  cases j with
  | obj comp => exact ⟨comp, rfl, by simpa [complaintShape] using h⟩
  | null => simp [complaintShape] at h
  | bool b => simp [complaintShape] at h
  | num n => simp [complaintShape] at h
  | str s => simp [complaintShape] at h
  | arr xs => simp [complaintShape] at h

theorem classify_ok_of_wellshaped (message : Json)
    (h : wellShapedMessage message = true) :
    ∃ evs, classify_message message = Except.ok evs := by
  cases message with
  | null => simp [wellShapedMessage] at h
  | bool b => simp [wellShapedMessage] at h
  | num n => simp [wellShapedMessage] at h
  | str s => simp [wellShapedMessage] at h
  | arr xs => simp [wellShapedMessage] at h
  | obj msg =>
    simp only [wellShapedMessage] at h
    cases hm : dictGet msg "mail" (Json.obj []) with
    | null => rw [hm] at h; simp [mailShape] at h
    | bool b => rw [hm] at h; simp [mailShape] at h
    | num n => rw [hm] at h; simp [mailShape] at h
    | str s => rw [hm] at h; simp [mailShape] at h
    | arr xs => rw [hm] at h; simp [mailShape] at h
    | obj mail =>
      rw [hm] at h
      simp only [mailShape, Bool.and_eq_true] at h
      obtain ⟨⟨hch, hts⟩, hbranch⟩ := h
      obtain ⟨t, ht⟩ := getTimestamp_ok mail hts
      cases hch2 : dictGet mail "commonHeaders" (Json.obj []) with
      | obj ch => ?_
      | null => rw [hch2] at hch; exact Bool.noConfusion hch
      | bool b => rw [hch2] at hch; simp [isObj] at hch
      | num n => rw [hch2] at hch; simp [isObj] at hch
      | str s => rw [hch2] at hch; simp [isObj] at hch
      | arr xs => rw [hch2] at hch; simp [isObj] at hch
      simp only [classify_message, pyGet_obj, except_bind_ok, hm, hch2, ht]
      cases hd : (dictGet msg "notificationType" (Json.str "")).eqStr "Delivery" with
      | true =>
        rw [hd, if_pos rfl] at hbranch
        simp only [hd, if_true]
        obtain ⟨deliv, hdel, hiterable⟩ := deliveryShape_elim mail _ hbranch
        obtain ⟨l, hl⟩ := pyIter_ok_of_iterable _ hiterable
        simp only [hdel, pyGet_obj, except_bind_ok, hl, except_pure]
        exact ⟨_, rfl⟩
      | false =>
        rw [hd] at hbranch
        simp only [Bool.false_eq_true, if_false] at hbranch
        simp only [hd, Bool.false_eq_true, if_false]
        cases hb : (dictGet msg "notificationType" (Json.str "")).eqStr "Bounce" with
        | true =>
          rw [hb, if_pos rfl] at hbranch
          simp only [hb, if_true]
          obtain ⟨bounce, hbo, hall⟩ := bounceShape_elim _ hbranch
          obtain ⟨items, hit, hallobj⟩ := allObjs_elim _ hall
          obtain ⟨rs, hrs⟩ := extractAddresses_ok items hallobj
          simp only [hbo, pyGet_obj, except_bind_ok, hit, emailEvents_eq, hrs, Except.map]
          exact ⟨_, rfl⟩
        | false =>
          rw [hb] at hbranch
          simp only [Bool.false_eq_true, if_false] at hbranch
          simp only [hb, Bool.false_eq_true, if_false]
          cases hc : (dictGet msg "notificationType" (Json.str "")).eqStr "Complaint" with
          | true =>
            rw [hc, if_pos rfl] at hbranch
            simp only [hc, if_true]
            obtain ⟨comp, hco, hall⟩ := complaintShape_elim _ hbranch
            obtain ⟨items, hit, hallobj⟩ := allObjs_elim _ hall
            obtain ⟨rs, hrs⟩ := extractAddresses_ok items hallobj
            simp only [hco, pyGet_obj, except_bind_ok, hit, emailEvents_eq, hrs, Except.map]
            exact ⟨_, rfl⟩
          | false =>
            simp only [hc, Bool.false_eq_true, if_false]
            exact ⟨[], rfl⟩

/-- Counterexample for C5: the inner `Message` text decodes to a JSON
array, so `message.get('notificationType', ...)` raises
`AttributeError`, which `parse_events` propagates (only
`json.JSONDecodeError` is caught there); the claim that `parse_events`
never raises on any payload is false. -/
theorem parse_events_raises_on_nonobject_message :
    parse_events [("Message", Json.str "[1]")] = Except.error PyErr.attributeError := rfl

/-- C5 (amended): `parse_events` returns a list without raising for
every payload whose `Message` is absent, falsy, undecodable text, or
decodes to a well-typed message (dicts where the code calls `.get`, an
iterable effective recipient list whose entries are dicts, a
string-or-falsy timestamp); a wrong-typed value instead raises an
exception, which `_handle_notification` catches at the HTTP boundary. -/
theorem parse_events_ok_of_wellshaped (payload : List (String × Json))
    (h : wellShapedPayload payload = true) :
    ∃ evs, parse_events payload = Except.ok evs := by
  unfold wellShapedPayload at h
  cases hm : dictGet payload "Message" (Json.str "") with
  | str s =>
      rw [hm] at h
      simp only [messageShape] at h
      cases hd : json_loads s with
      | some message =>
          rw [hd] at h
          simp only at h
          rw [parse_events_eq_classify payload s message hm hd]
          exact classify_ok_of_wellshaped message h
      | none =>
          cases ht : truthy (Json.str s) <;>
            exact ⟨[], by simp [parse_events, hm, ht, hd]⟩
  | null => exact ⟨[], by simp [parse_events, hm, truthy]⟩
  | bool b =>
      rw [hm] at h
      simp only [Bool.not_eq_true'] at h
      exact ⟨[], by simp [parse_events, hm, h]⟩
  | num n =>
      rw [hm] at h
      simp only [Bool.not_eq_true'] at h
      exact ⟨[], by simp [parse_events, hm, h]⟩
  | arr xs =>
      rw [hm] at h
      simp only [Bool.not_eq_true'] at h
      exact ⟨[], by simp [parse_events, hm, h]⟩
  | obj kvs =>
      rw [hm] at h
      simp only [Bool.not_eq_true'] at h
      exact ⟨[], by simp [parse_events, hm, h]⟩

/-- Witness for the amended C5 at a well-shaped Bounce payload with a
missing key (`commonHeaders` absent) and an entry lacking its
`emailAddress`. -/
theorem parse_events_ok_of_wellshaped_witness :
    wellShapedPayload [("Message", Json.str
      "\x7b\"notificationType\":\"Bounce\",\"mail\":\x7b\"destination\":[\"a\"]\x7d,\"bounce\":\x7b\"bouncedRecipients\":[\x7b\x7d]\x7d\x7d")] = true ∧
    ∃ evs, parse_events [("Message", Json.str
      "\x7b\"notificationType\":\"Bounce\",\"mail\":\x7b\"destination\":[\"a\"]\x7d,\"bounce\":\x7b\"bouncedRecipients\":[\x7b\x7d]\x7d\x7d")] = Except.ok evs :=
  ⟨rfl, parse_events_ok_of_wellshaped _ rfl⟩

/-- String timestamps never make the timestamp block raise: the result
is `fromisoformat` of the string with every `Z` replaced by `+00:00`
(the empty string is falsy and short-circuits to `None`, which equals
the parse failure of the empty string). -/
theorem getTimestamp_str (mail : List (String × Json)) (tstr : String)
    (hv : dictGet mail "timestamp" Json.null = Json.str tstr) :
    getTimestamp (Json.obj mail) =
      Except.ok (fromisoformat (pyReplace tstr 'Z' "+00:00")) := by
  unfold getTimestamp
  simp only [pyGet_obj, except_bind_ok, hv]
  cases ht : truthy (Json.str tstr) with
  | false =>
      have he : tstr = "" := by simpa [truthy] using ht
      subst he
      simp [except_pure]
      rfl
  | true => simp [ht, except_pure]

/-- Counterexample for C6: a malformed timestamp value that is not a
string (here the number 5) does not degrade to a null timestamp — the
`ts.replace` call raises `AttributeError`, which is outside the caught
`(ValueError, TypeError)` and aborts the whole notification. -/
theorem nonstring_timestamp_aborts_notification :
    parse_events [("Message", Json.str
      "\x7b\"notificationType\":\"Delivery\",\"mail\":\x7b\"destination\":[\"a\"],\"timestamp\":5\x7d,\"delivery\":\x7b\"recipients\":[\"a\"]\x7d\x7d")] =
    Except.error PyErr.attributeError := rfl

/-- C6 (amended): for a notification whose `mail.timestamp` is a
string, the timestamp is parsed as ISO-8601 with the `Z` UTC designator
rewritten to the explicit `+00:00` offset — "2024-01-02T03:04:05Z"
parses to the UTC instant 2024-01-02T03:04:05+00:00 — and a malformed
timestamp string yields a null timestamp on all events of the
notification rather than aborting it; a truthy non-string timestamp
value instead raises and aborts the notification. -/
theorem string_timestamp_parses_or_nulls
    (payload : List (String × Json)) (s tstr : String)
    (msg mail ch deliv : List (String × Json)) (recips : List Json)
    (hmsg : dictGet payload "Message" (Json.str "") = Json.str s)
    (hdec : json_loads s = some (Json.obj msg))
    (hnt : dictGet msg "notificationType" (Json.str "") = Json.str "Delivery")
    (hmail : dictGet msg "mail" (Json.obj []) = Json.obj mail)
    (hch : dictGet mail "commonHeaders" (Json.obj []) = Json.obj ch)
    (htsv : dictGet mail "timestamp" Json.null = Json.str tstr)
    (hdeliv : dictGet msg "delivery" (Json.obj []) = Json.obj deliv)
    (hrec : pyIter (dictGet deliv "recipients" (dictGet mail "destination" (Json.arr []))) =
      Except.ok recips) :
    ∃ evs, parse_events payload = Except.ok evs ∧
      (∀ e ∈ evs, e.timestamp = fromisoformat (pyReplace tstr 'Z' "+00:00")) ∧
      (fromisoformat (pyReplace tstr 'Z' "+00:00") = none → ∀ e ∈ evs, e.timestamp = none) ∧
      (tstr = "2024-01-02T03:04:05Z" →
        ∀ e ∈ evs, e.timestamp = some (Timestamp.mk 2024 1 2 3 4 5 (some 0))) := by
  rw [parse_events_eq_classify payload s (Json.obj msg) hmsg hdec]
  rw [classify_delivery msg mail ch deliv recips (fromisoformat (pyReplace tstr 'Z' "+00:00"))
    hnt hmail hch (getTimestamp_str mail tstr htsv) hdeliv hrec]
  refine ⟨_, rfl, ?_, ?_, ?_⟩
  · intro e he
    obtain ⟨r, _, rfl⟩ := List.mem_map.1 he
    rfl
  · intro hnone e he
    obtain ⟨r, _, rfl⟩ := List.mem_map.1 he
    exact hnone
  · intro heq e he
    obtain ⟨r, _, rfl⟩ := List.mem_map.1 he
    subst heq
    rfl

/-- Witness for the amended C6 at the literal timestamp
"2024-01-02T03:04:05Z" of the test suite. -/
theorem string_timestamp_parses_or_nulls_witness :
    ∃ evs, parse_events [("Message", Json.str
      "\x7b\"notificationType\":\"Delivery\",\"mail\":\x7b\"destination\":[\"a\"],\"timestamp\":\"2024-01-02T03:04:05Z\"\x7d\x7d")] =
      Except.ok evs ∧
      (∀ e ∈ evs,
        e.timestamp = fromisoformat (pyReplace "2024-01-02T03:04:05Z" 'Z' "+00:00")) ∧
      (fromisoformat (pyReplace "2024-01-02T03:04:05Z" 'Z' "+00:00") = none →
        ∀ e ∈ evs, e.timestamp = none) ∧
      ("2024-01-02T03:04:05Z" = "2024-01-02T03:04:05Z" →
        ∀ e ∈ evs, e.timestamp = some (Timestamp.mk 2024 1 2 3 4 5 (some 0))) :=
  string_timestamp_parses_or_nulls _ _ "2024-01-02T03:04:05Z"
    [("notificationType", Json.str "Delivery"),
     ("mail", Json.obj [("destination", Json.arr [Json.str "a"]),
        ("timestamp", Json.str "2024-01-02T03:04:05Z")])]
    [("destination", Json.arr [Json.str "a"]),
     ("timestamp", Json.str "2024-01-02T03:04:05Z")]
    [] [] [Json.str "a"]
    rfl rfl rfl rfl rfl rfl rfl rfl

theorem emailEvents_mem (items : List Json) (mk : Json → ESPEvent) (evs : List ESPEvent)
    (h : emailEvents items mk = Except.ok evs) :
    ∀ e ∈ evs, ∃ r, e = mk r := by
  rw [emailEvents_eq, except_map_eq_ok] at h
  obtain ⟨rs, _, rfl⟩ := h
  intro e he
  obtain ⟨r, _, rfl⟩ := List.mem_map.1 he
  exact ⟨r, rfl⟩

/-- Whatever path the classifier takes, all events of one notification
share the fields computed once per notification. -/
theorem classify_const_fields (m : Json) (evs : List ESPEvent)
    (h : classify_message m = Except.ok evs) :
    ∃ raw st mid ts subj dests, ∀ e ∈ evs,
      e.raw_event = raw ∧ e.delivery_status = st ∧ e.message_id = mid ∧
      e.timestamp = ts ∧ e.subject = subj ∧ e.to_addresses = dests := by
  simp only [classify_message, except_bind_eq_ok] at h
  obtain ⟨nt, hnt, md, hmd, mid, hmid, dests, hdests, chs, hch, subj, hsubj, ts, hts, h⟩ := h
  split at h
  · simp only [except_bind_eq_ok, except_pure, Except.ok.injEq] at h
    obtain ⟨dd, hdd, recips, hrecips, items, hitems, rfl⟩ := h
    refine ⟨"Delivery", RecipientDeliveryStatus.DELIVERED, mid, ts, subj, dests, ?_⟩
    intro e he
    obtain ⟨r, _, rfl⟩ := List.mem_map.1 he
    exact ⟨rfl, rfl, rfl, rfl, rfl, rfl⟩
  · split at h
    · simp only [except_bind_eq_ok] at h
      obtain ⟨bd, hbd, bt, hbt, brs, hbrs, items, hitems, h⟩ := h
      refine ⟨"Bounce:" ++ pyStr bt,
        if bt.eqStr "Transient" then RecipientDeliveryStatus.SOFT_BOUNCED
          else RecipientDeliveryStatus.HARD_BOUNCED, mid, ts, subj, dests, ?_⟩
      intro e he
      obtain ⟨r, rfl⟩ := emailEvents_mem items _ evs h e he
      exact ⟨rfl, rfl, rfl, rfl, rfl, rfl⟩
    · split at h
      · simp only [except_bind_eq_ok] at h
        obtain ⟨cd, hcd, crs, hcrs, items, hitems, h⟩ := h
        refine ⟨"Complaint", RecipientDeliveryStatus.SPAM_COMPLAINT, mid, ts, subj, dests, ?_⟩
        intro e he
        obtain ⟨r, rfl⟩ := emailEvents_mem items _ evs h e he
        exact ⟨rfl, rfl, rfl, rfl, rfl, rfl⟩
      · simp only [except_pure, Except.ok.injEq] at h
        subst h
        exact ⟨"", RecipientDeliveryStatus.DELIVERED, Json.null, none, Json.null, Json.null,
          fun e he => absurd he (List.not_mem_nil e)⟩

/-- C7: within a single notification, all emitted events carry
identical message_id, timestamp, subject and to_addresses values and
identical raw_event and delivery_status values, differing only in their
recipient field. -/
theorem events_share_notification_fields
    (payload : List (String × Json)) (s : String) (message : Json) (evs : List ESPEvent)
    (hmsg : dictGet payload "Message" (Json.str "") = Json.str s)
    (hdec : json_loads s = some message)
    (hok : parse_events payload = Except.ok evs) :
    ∀ e₁ ∈ evs, ∀ e₂ ∈ evs,
      e₁.raw_event = e₂.raw_event ∧ e₁.delivery_status = e₂.delivery_status ∧
      e₁.message_id = e₂.message_id ∧ e₁.timestamp = e₂.timestamp ∧
      e₁.subject = e₂.subject ∧ e₁.to_addresses = e₂.to_addresses := by
  rw [parse_events_eq_classify payload s message hmsg hdec] at hok
  obtain ⟨raw, st, mid, ts, subj, dests, hconst⟩ := classify_const_fields message evs hok
  intro e₁ h₁ e₂ h₂
  obtain ⟨r1, s1, m1, t1, u1, d1⟩ := hconst e₁ h₁
  obtain ⟨r2, s2, m2, t2, u2, d2⟩ := hconst e₂ h₂
  exact ⟨r1.trans r2.symm, s1.trans s2.symm, m1.trans m2.symm, t1.trans t2.symm,
    u1.trans u2.symm, d1.trans d2.symm⟩

/-- Witness for C7 at a two-recipient Delivery notification with a
subject: the two produced events share every field but the recipient. -/
theorem events_share_notification_fields_witness :
    (ESPEvent.mk "Delivery" RecipientDeliveryStatus.DELIVERED (Json.str "v1")
        (Json.str "mm") none (Json.str "Hi")
        (Json.arr [Json.str "v1", Json.str "v2"])).raw_event =
      (ESPEvent.mk "Delivery" RecipientDeliveryStatus.DELIVERED (Json.str "v2")
        (Json.str "mm") none (Json.str "Hi")
        (Json.arr [Json.str "v1", Json.str "v2"])).raw_event ∧
    (ESPEvent.mk "Delivery" RecipientDeliveryStatus.DELIVERED (Json.str "v1")
        (Json.str "mm") none (Json.str "Hi")
        (Json.arr [Json.str "v1", Json.str "v2"])).delivery_status =
      (ESPEvent.mk "Delivery" RecipientDeliveryStatus.DELIVERED (Json.str "v2")
        (Json.str "mm") none (Json.str "Hi")
        (Json.arr [Json.str "v1", Json.str "v2"])).delivery_status ∧
    (ESPEvent.mk "Delivery" RecipientDeliveryStatus.DELIVERED (Json.str "v1")
        (Json.str "mm") none (Json.str "Hi")
        (Json.arr [Json.str "v1", Json.str "v2"])).message_id =
      (ESPEvent.mk "Delivery" RecipientDeliveryStatus.DELIVERED (Json.str "v2")
        (Json.str "mm") none (Json.str "Hi")
        (Json.arr [Json.str "v1", Json.str "v2"])).message_id ∧
    (ESPEvent.mk "Delivery" RecipientDeliveryStatus.DELIVERED (Json.str "v1")
        (Json.str "mm") none (Json.str "Hi")
        (Json.arr [Json.str "v1", Json.str "v2"])).timestamp =
      (ESPEvent.mk "Delivery" RecipientDeliveryStatus.DELIVERED (Json.str "v2")
        (Json.str "mm") none (Json.str "Hi")
        (Json.arr [Json.str "v1", Json.str "v2"])).timestamp ∧
    (ESPEvent.mk "Delivery" RecipientDeliveryStatus.DELIVERED (Json.str "v1")
        (Json.str "mm") none (Json.str "Hi")
        (Json.arr [Json.str "v1", Json.str "v2"])).subject =
      (ESPEvent.mk "Delivery" RecipientDeliveryStatus.DELIVERED (Json.str "v2")
        (Json.str "mm") none (Json.str "Hi")
        (Json.arr [Json.str "v1", Json.str "v2"])).subject ∧
    (ESPEvent.mk "Delivery" RecipientDeliveryStatus.DELIVERED (Json.str "v1")
        (Json.str "mm") none (Json.str "Hi")
        (Json.arr [Json.str "v1", Json.str "v2"])).to_addresses =
      (ESPEvent.mk "Delivery" RecipientDeliveryStatus.DELIVERED (Json.str "v2")
        (Json.str "mm") none (Json.str "Hi")
        (Json.arr [Json.str "v1", Json.str "v2"])).to_addresses :=
  events_share_notification_fields
    [("Message", Json.str
      "\x7b\"notificationType\":\"Delivery\",\"mail\":\x7b\"messageId\":\"mm\",\"destination\":[\"v1\",\"v2\"],\"commonHeaders\":\x7b\"subject\":\"Hi\"\x7d\x7d,\"delivery\":\x7b\x7d\x7d")]
    _ (Json.obj
      [("notificationType", Json.str "Delivery"),
       ("mail", Json.obj [("messageId", Json.str "mm"),
          ("destination", Json.arr [Json.str "v1", Json.str "v2"]),
          ("commonHeaders", Json.obj [("subject", Json.str "Hi")])]),
       ("delivery", Json.obj [])])
    [ESPEvent.mk "Delivery" RecipientDeliveryStatus.DELIVERED (Json.str "v1")
        (Json.str "mm") none (Json.str "Hi") (Json.arr [Json.str "v1", Json.str "v2"]),
     ESPEvent.mk "Delivery" RecipientDeliveryStatus.DELIVERED (Json.str "v2")
        (Json.str "mm") none (Json.str "Hi") (Json.arr [Json.str "v1", Json.str "v2"])]
    rfl rfl rfl
    (ESPEvent.mk "Delivery" RecipientDeliveryStatus.DELIVERED (Json.str "v1")
        (Json.str "mm") none (Json.str "Hi") (Json.arr [Json.str "v1", Json.str "v2"]))
    (List.mem_cons_self _ _)
    (ESPEvent.mk "Delivery" RecipientDeliveryStatus.DELIVERED (Json.str "v2")
        (Json.str "mm") none (Json.str "Hi") (Json.arr [Json.str "v1", Json.str "v2"]))
    (List.mem_cons_of_mem _ (List.mem_cons_self _ _))

/-- C8: in the Bounce/Complaint recipient loop (used by both branches
of the classifier), an entry whose `emailAddress` is missing or empty
(more generally, falsy) produces no event and causes no error, and the
remaining sibling entries are processed exactly as if the entry were
not there. -/
theorem empty_email_entry_skipped (pre post : List Json) (o : List (String × Json))
    (mk : Json → ESPEvent)
    (h : truthy (dictGet o "emailAddress" (Json.str "")) = false) :
    emailEvents (pre ++ Json.obj o :: post) mk = emailEvents (pre ++ post) mk := by
  induction pre with
  | nil =>
      simp only [List.nil_append, emailEvents, pyGet_obj, except_bind_ok, h]
      cases he : emailEvents post mk <;>
        simp [he, except_bind_ok, except_bind_error, h, except_pure]
  | cons x rest ih =>
      simp only [List.cons_append, emailEvents, List.append_eq, ih]

/-- Witness for C8: a no-address entry between two addressed entries is
dropped while its siblings are processed. -/
theorem empty_email_entry_skipped_witness :
    emailEvents [Json.obj [("emailAddress", Json.str "a")], Json.obj [],
        Json.obj [("emailAddress", Json.str "b")]]
      (fun r => ESPEvent.mk "Complaint" RecipientDeliveryStatus.SPAM_COMPLAINT r
        Json.null none Json.null (Json.arr [])) =
    emailEvents [Json.obj [("emailAddress", Json.str "a")],
        Json.obj [("emailAddress", Json.str "b")]]
      (fun r => ESPEvent.mk "Complaint" RecipientDeliveryStatus.SPAM_COMPLAINT r
        Json.null none Json.null (Json.arr [])) :=
  empty_email_entry_skipped [Json.obj [("emailAddress", Json.str "a")]]
    [Json.obj [("emailAddress", Json.str "b")]] [] _ rfl

/-- C9: for every payload whose `Type` is "SubscriptionConfirmation",
`post` returns the confirmation response — status marker plus the
payload's `TopicArn` and `SubscribeURL` verbatim — without ever
invoking the event classifier: the response is the same whatever the
rest of the payload (in particular its `Message`) holds, and no events
are parsed or produced. -/
theorem subscription_confirmation_short_circuits
    (body : String) (kvs : List (String × Json))
    (hdec : json_loads body = some (Json.obj kvs))
    (htype : dictGet kvs "Type" (Json.str "") = Json.str "SubscriptionConfirmation") :
    post body = Except.ok (HttpResponse.mk 200
      [("status", Json.str "subscription_confirmation_received"),
       ("topic_arn", dictGet kvs "TopicArn" Json.null),
       ("subscribe_url", dictGet kvs "SubscribeURL" Json.null)]) := by
  simp only [post, verify_signature, hdec, htype, Json.eqStr,
    handle_subscription_confirmation]
  rfl

/-- Witness for C9, mirroring the subscription-confirmation test; the
payload carries a `Message` that the classifier would raise on, showing
the classifier is not involved. -/
theorem subscription_confirmation_short_circuits_witness :
    post "\x7b\"Type\":\"SubscriptionConfirmation\",\"TopicArn\":\"arn:x\",\"SubscribeURL\":\"https://s\",\"Message\":\"[1]\"\x7d" =
    Except.ok (HttpResponse.mk 200
      [("status", Json.str "subscription_confirmation_received"),
       ("topic_arn", Json.str "arn:x"),
       ("subscribe_url", Json.str "https://s")]) :=
  subscription_confirmation_short_circuits _
    [("Type", Json.str "SubscriptionConfirmation"), ("TopicArn", Json.str "arn:x"),
     ("SubscribeURL", Json.str "https://s"), ("Message", Json.str "[1]")]
    rfl rfl

/-- C10: the Delivery branch applies no empty-address filtering — the
recipients of the emitted events, in order, are exactly the elements of
the effective recipient list, so an empty-string entry yields an event
whose recipient is the empty string (unlike the Bounce and Complaint
paths, which skip falsy addresses). -/
theorem delivery_no_recipient_filtering
    (payload : List (String × Json)) (s : String)
    (msg mail ch deliv : List (String × Json)) (recips : List Json) (ts : Option Timestamp)
    (hmsg : dictGet payload "Message" (Json.str "") = Json.str s)
    (hdec : json_loads s = some (Json.obj msg))
    (hnt : dictGet msg "notificationType" (Json.str "") = Json.str "Delivery")
    (hmail : dictGet msg "mail" (Json.obj []) = Json.obj mail)
    (hch : dictGet mail "commonHeaders" (Json.obj []) = Json.obj ch)
    (hts : getTimestamp (Json.obj mail) = Except.ok ts)
    (hdeliv : dictGet msg "delivery" (Json.obj []) = Json.obj deliv)
    (hrec : pyIter (dictGet deliv "recipients" (dictGet mail "destination" (Json.arr []))) =
      Except.ok recips) :
    ∃ evs, parse_events payload = Except.ok evs ∧
      evs.map ESPEvent.recipient = recips := by
  rw [parse_events_eq_classify payload s (Json.obj msg) hmsg hdec]
  rw [classify_delivery msg mail ch deliv recips ts hnt hmail hch hts hdeliv hrec]
  refine ⟨_, rfl, ?_⟩
  rw [List.map_map]
  exact List.map_id recips

/-- Witness for C10: a recipients list containing the empty string
still yields one event per element, the empty string included. -/
theorem delivery_no_recipient_filtering_witness :
    ∃ evs, parse_events [("Message", Json.str
      "\x7b\"notificationType\":\"Delivery\",\"mail\":\x7b\"destination\":[\"a\"]\x7d,\"delivery\":\x7b\"recipients\":[\"\",\"a\"]\x7d\x7d")] =
      Except.ok evs ∧
      evs.map ESPEvent.recipient = [Json.str "", Json.str "a"] :=
  delivery_no_recipient_filtering _ _
    [("notificationType", Json.str "Delivery"),
     ("mail", Json.obj [("destination", Json.arr [Json.str "a"])]),
     ("delivery", Json.obj [("recipients", Json.arr [Json.str "", Json.str "a"])])]
    [("destination", Json.arr [Json.str "a"])]
    [] [("recipients", Json.arr [Json.str "", Json.str "a"])]
    [Json.str "", Json.str "a"] none
    rfl rfl rfl rfl rfl rfl rfl rfl
